import Mathlib

/-!
Verification model of the DocuSketch plotting utility.

The repository holds two near-duplicate implementations of one class
`Plotter` (files `plotter.py` — the extended variant — and
`ChartDrawer.py` — the basic variant).  Each fetches a JSON table from a
URL and renders a fixed battery of charts, returning the list of file
paths written.

Embedding choices:
* A parsed table is represented, for the batch-level claims, by the list
  of its column names; referencing a column absent from the table raises
  `KeyError` in pandas, modelled as `Except.error columnName`.
* The batch `draw_plots` wraps the whole fixed sequence in one
  `try/except KeyError` block, so the first failing operation aborts the
  remainder and the paths collected so far are returned.
* `plotter.py` line 134 reads `combined_data['Metric']` although the
  melt created the column as `'metric'`; the model makes
  `combinedBoxplots` fail with `KeyError 'Metric'` after its column
  accesses succeed, exactly as the source does.
* Chart contents (reference-line endpoints, top/bottom-N selection) are
  modelled over `ℚ` at value level, separately from the batch model.
-/

/-- Result of `requests.head` inside `__check_url`: either the remote
responded without an error status, or a `RequestException`
(connection error, timeout, or `raise_for_status` failure) occurred. -/
inductive UrlCheck where
  | ok : UrlCheck
  | requestException : String → UrlCheck
deriving DecidableEq, Repr

/-- Model of `__check_url` (`plotter.py` lines 20-27): returns `true`
only when `requests.head` succeeded and `raise_for_status` did not
raise; any `RequestException` is caught, logged, and yields `false`. -/
def check_url : UrlCheck → Bool
  | .ok => true
  | .requestException _ => false

/-- Outcome of `pd.read_json`: the two `except` arms of `draw_plots`
distinguish `ValueError` (malformed JSON) from any other exception. -/
inductive ReadError where
  | valueError : String → ReadError
  | otherError : String → ReadError
deriving DecidableEq, Repr

/-- One chart operation of the fixed batch sequence. -/
inductive PlotOp where
  | scatter : String → String → Bool → PlotOp
  | histogram : String → PlotOp
  | boxplots : List String → String → PlotOp
  | combinedBoxplots : List String → List String → String → PlotOp
  | topBottom : String → Nat → Bool → PlotOp
deriving DecidableEq, Repr

/-- Columns each operation references, in the order the source accesses
them (`data[x]`, `data[y]` for scatter; `data[columns]` for the box
plots; `sort_values(by=column)` then `y='name'` for the bar charts). -/
def requiredCols : PlotOp → List String
  | .scatter x y _ => [x, y]
  | .histogram c => [c]
  | .boxplots cs _ => cs
  | .combinedBoxplots cs1 cs2 _ => cs1 ++ cs2
  | .topBottom c _ _ => [c, "name"]

/-- The title each operation formats (f-strings in the source). -/
def opTitle : PlotOp → String
  | .scatter x y _ => "Scatter plot " ++ x ++ " vs " ++ y
  | .histogram c => "Histogram for " ++ c
  | .boxplots _ t => "Boxplots for " ++ t
  | .combinedBoxplots _ _ t => "Boxplots for " ++ t
  | .topBottom c cnt top =>
      "Top " ++ toString cnt ++ " " ++ (if top then "best" else "worst")
        ++ " results for " ++ c

/-- First referenced column that the table lacks, if any. -/
def firstMissing (present : List String) : List String → Option String
  | [] => none
  | c :: cs => if present.contains c then firstMissing present cs else some c

/-- Model of `os.path.join` for the relative paths used here. -/
def joinPath (dir file : String) : String := dir ++ "/" ++ file

/-- Run one chart operation against a table with the given columns.
`save` is the variant's `__save_plot_to_file`.  A missing column raises
`KeyError` (modelled as `.error column`); `combinedBoxplots`
additionally always raises `KeyError 'Metric'` (`plotter.py` line 134
reads `combined_data['Metric']` but the melt named the column
`'metric'`), after its own column accesses succeeded.  Otherwise the
operation saves the figure and returns the file path. -/
def runOp (save : String → String) (present : List String) (op : PlotOp) :
    Except String String :=
  match firstMissing present (requiredCols op) with
  | some c => .error c
  | none =>
    match op with
    | .combinedBoxplots _ _ _ => .error "Metric"
    | _ => .ok (save (opTitle op))

/-- The `try` block of `draw_plots`: operations run in order, each
successful path is appended; the first `KeyError` aborts the rest and
the collected prefix is returned. -/
def runBatch (save : String → String) (ops : List PlotOp)
    (present : List String) : List String :=
  match ops with
  | [] => []
  | op :: rest =>
    match runOp save present op with
    | .ok p => p :: runBatch save rest present
    | .error _ => []

/-- Process-wide matplotlib configuration touched by
`__set_plot_params`; `rest` stands for all rcParams entries the code
does not touch. -/
structure RcParams where
  axes_titlesize : Nat
  axes_titlepad : Nat
  style : String
  figure_figsize : Nat × Nat
  rest : List (String × String)
deriving DecidableEq, Repr

/-- Model of `__set_plot_params` (identical in both files): sets title
size 18, title pad 20, seaborn whitegrid style, 10×6 figure size. -/
def set_plot_params (c : RcParams) : RcParams :=
  { c with axes_titlesize := 18, axes_titlepad := 20,
           style := "whitegrid", figure_figsize := (10, 6) }

/-- Process state touched by `__init__`: the set of directories created
so far and the global plotting configuration. -/
structure ProcessState where
  dirs : List String
  rc : RcParams
deriving DecidableEq, Repr

/-- Model of `os.makedirs(d, exist_ok=True)`. -/
def makedirs (d : String) (dirs : List String) : List String :=
  if dirs.contains d then dirs else d :: dirs

namespace Plotter

/-- `__save_plot_to_file` of the extended variant (`plotter.py` lines
80-84): replaces each space of the title with an underscore, joins with
the plot directory and appends `.png`. -/
def save_plot_to_file (filename : String) : String :=
  joinPath "plots" (String.map (fun c => if c = ' ' then '_' else c) filename)
    ++ ".png"

/-- The fixed batch sequence of `plotter.py` `draw_plots`
(lines 57-69), in source order. -/
def ops : List PlotOp :=
  [ .scatter "gt_corners" "rb_corners" true
  , .scatter "gt_corners" "mean" false
  , .scatter "floor_mean" "ceiling_mean" false
  , .histogram "mean"
  , .histogram "floor_mean"
  , .histogram "ceiling_mean"
  , .boxplots ["min", "mean", "max"] "stats"
  , .boxplots ["mean", "floor_mean", "ceiling_mean"] "means"
  , .boxplots ["floor_min", "floor_mean", "floor_max"] "floor stats"
  , .boxplots ["ceiling_min", "ceiling_mean", "ceiling_max"] "ceiling stats"
  , .combinedBoxplots ["floor_min", "floor_mean", "floor_max"]
      ["ceiling_min", "ceiling_mean", "ceiling_max"] "Floor vs Ceiling"
  , .topBottom "mean" 10 true
  , .topBottom "mean" 10 false ]

/-- `draw_plots` of the extended variant: empty on a failed URL check,
empty on any read error, otherwise the batch prefix. -/
def draw_plots (url : UrlCheck) (parsed : Except ReadError (List String)) :
    List String :=
  if check_url url = false then []
  else
    match parsed with
    | .error _ => []
    | .ok present => runBatch save_plot_to_file ops present

/-- `__init__` of `plotter.py`: create the plot directory if absent and
apply the global plot parameters. -/
def init (s : ProcessState) : ProcessState :=
  { dirs := makedirs "plots" s.dirs, rc := set_plot_params s.rc }

end Plotter

namespace ChartDrawer

/-- `__save_plot_to_file` of the basic variant (`ChartDrawer.py` lines
58-61): no sanitization, just join and append `.png`. -/
def save_plot_to_file (filename : String) : String :=
  joinPath "plots" filename ++ ".png"

/-- The fixed batch sequence of `ChartDrawer.py` `draw_plots`
(lines 39-47), in source order. -/
def ops : List PlotOp :=
  [ .scatter "gt_corners" "rb_corners" true
  , .scatter "floor_mean" "ceiling_mean" false
  , .histogram "mean"
  , .histogram "floor_mean"
  , .histogram "ceiling_mean"
  , .boxplots ["mean", "floor_mean", "ceiling_mean"] "means"
  , .boxplots ["min", "mean", "max"] "stats"
  , .topBottom "mean" 10 true
  , .topBottom "mean" 10 false ]

/-- `draw_plots` of the basic variant. -/
def draw_plots (url : UrlCheck) (parsed : Except ReadError (List String)) :
    List String :=
  if check_url url = false then []
  else
    match parsed with
    | .error _ => []
    | .ok present => runBatch save_plot_to_file ops present

/-- `__init__` of `ChartDrawer.py` (identical to the extended one). -/
def init (s : ProcessState) : ProcessState :=
  { dirs := makedirs "plots" s.dirs, rc := set_plot_params s.rc }

end ChartDrawer

/-- The full expected column set of the extended variant (§3 of the
design: union of the columns its thirteen operations reference). -/
def extendedColumns : List String :=
  [ "gt_corners", "rb_corners", "mean", "floor_mean", "ceiling_mean"
  , "min", "max", "floor_min", "floor_max", "ceiling_min", "ceiling_max"
  , "name" ]

/-- The expected column set of the basic variant. -/
def basicColumns : List String :=
  [ "gt_corners", "rb_corners", "mean", "floor_mean", "ceiling_mean"
  , "min", "max", "name" ]

/-- `pandas.Series.min` over a nonempty column (the empty case never
arises under the claims' hypotheses). -/
def seriesMin : List ℚ → ℚ
  | [] => 0
  | a :: l => l.foldl min a

/-- `pandas.Series.max` over a nonempty column. -/
def seriesMax : List ℚ → ℚ
  | [] => 0
  | a :: l => l.foldl max a

theorem foldl_min_le_init : ∀ (l : List ℚ) (a : ℚ), List.foldl min a l ≤ a := by
  intro l
  induction l with
  | nil => intro a; simp
  | cons b t ih =>
    intro a
    exact le_trans (ih (min a b)) (min_le_left a b)

theorem foldl_min_le_of_mem :
    ∀ (l : List ℚ) (a v : ℚ), v ∈ l → List.foldl min a l ≤ v := by
  intro l
  induction l with
  | nil => intro a v h; cases h
  | cons b t ih =>
    intro a v h
    rcases List.mem_cons.mp h with h | h
    · subst h
      exact le_trans (foldl_min_le_init t (min a v)) (min_le_right a v)
    · exact ih (min a b) v h

theorem foldl_min_mem :
    ∀ (l : List ℚ) (a : ℚ), List.foldl min a l = a ∨ List.foldl min a l ∈ l := by
  intro l
  induction l with
  | nil => intro a; left; rfl
  | cons b t ih =>
    intro a
    rcases ih (min a b) with h | h
    · rcases min_choice a b with hab | hab
      · left; rw [List.foldl_cons, h, hab]
      · right; rw [List.foldl_cons, h, hab]; exact List.mem_cons_self b t
    · right; exact List.mem_cons_of_mem b h

theorem init_le_foldl_max : ∀ (l : List ℚ) (a : ℚ), a ≤ List.foldl max a l := by
  intro l
  induction l with
  | nil => intro a; simp
  | cons b t ih =>
    intro a
    exact le_trans (le_max_left a b) (ih (max a b))

theorem le_foldl_max_of_mem :
    ∀ (l : List ℚ) (a v : ℚ), v ∈ l → v ≤ List.foldl max a l := by
  intro l
  induction l with
  | nil => intro a v h; cases h
  | cons b t ih =>
    intro a v h
    rcases List.mem_cons.mp h with h | h
    · subst h
      exact le_trans (le_max_right a v) (init_le_foldl_max t (max a v))
    · exact ih (max a b) v h

theorem foldl_max_mem :
    ∀ (l : List ℚ) (a : ℚ), List.foldl max a l = a ∨ List.foldl max a l ∈ l := by
  intro l
  induction l with
  | nil => intro a; left; rfl
  | cons b t ih =>
    intro a
    rcases ih (max a b) with h | h
    · rcases max_choice a b with hab | hab
      · left; rw [List.foldl_cons, h, hab]
      · right; rw [List.foldl_cons, h, hab]; exact List.mem_cons_self b t
    · right; exact List.mem_cons_of_mem b h

theorem seriesMin_le (l : List ℚ) (v : ℚ) (h : v ∈ l) : seriesMin l ≤ v := by
  cases l with
  | nil => cases h
  | cons a t =>
    rcases List.mem_cons.mp h with h | h
    · subst h; exact foldl_min_le_init t v
    · exact foldl_min_le_of_mem t a v h

theorem seriesMin_mem (l : List ℚ) (h : l ≠ []) : seriesMin l ∈ l := by
  cases l with
  | nil => exact absurd rfl h
  | cons a t =>
    rcases foldl_min_mem t a with h' | h'
    · rw [seriesMin, h']; exact List.mem_cons_self a t
    · exact List.mem_cons_of_mem a h'

theorem le_seriesMax (l : List ℚ) (v : ℚ) (h : v ∈ l) : v ≤ seriesMax l := by
  cases l with
  | nil => cases h
  | cons a t =>
    rcases List.mem_cons.mp h with h | h
    · subst h; exact init_le_foldl_max t v
    · exact le_foldl_max_of_mem t a v h

theorem seriesMax_mem (l : List ℚ) (h : l ≠ []) : seriesMax l ∈ l := by
  cases l with
  | nil => exact absurd rfl h
  | cons a t =>
    rcases foldl_max_mem t a with h' | h'
    · rw [seriesMax, h']; exact List.mem_cons_self a t
    · exact List.mem_cons_of_mem a h'

/-- The dashed diagonal drawn by `plt.plot([min_limit, max_limit],
[min_limit, max_limit], 'r--', linewidth=1, zorder=1)`. -/
structure RefLine where
  lo : ℚ
  hi : ℚ
  zorder : Nat
deriving DecidableEq, Repr

/-- Value-level content of one scatter chart. -/
structure ScatterChart where
  title : String
  points : List (ℚ × ℚ)
  pointsZorder : Nat
  line : Option RefLine
deriving DecidableEq, Repr

/-- `draw_scatterplot` (identical in both source files, lines 95-106 of
`plotter.py`): when `add_line` is set, the reference line runs from
`min(data[x].min(), data[y].min()) * 0.9` to
`max(data[x].max(), data[y].max()) * 1.1` at zorder 1; the points are
drawn at zorder 2. -/
def draw_scatterplot (xs ys : List ℚ) (x y : String) (add_line : Bool) :
    ScatterChart :=
  { title := "Scatter plot " ++ x ++ " vs " ++ y
  , points := xs.zip ys
  , pointsZorder := 2
  , line :=
      if add_line then
        some { lo := min (seriesMin xs) (seriesMin ys) * (9 / 10)
             , hi := max (seriesMax xs) (seriesMax ys) * (11 / 10)
             , zorder := 1 }
      else none }

/-- Row comparison used by `sort_values(by=column, ascending=True)`:
rows are (column value, name) pairs. -/
def leRow (a b : ℚ × String) : Prop := a.1 ≤ b.1

/-- Row comparison for `ascending=False`. -/
def geRow (a b : ℚ × String) : Prop := b.1 ≤ a.1

instance : DecidableRel leRow :=
  fun a b => inferInstanceAs (Decidable (a.1 ≤ b.1))

instance : DecidableRel geRow :=
  fun a b => inferInstanceAs (Decidable (b.1 ≤ a.1))

instance : IsTotal (ℚ × String) leRow := ⟨fun a b => le_total a.1 b.1⟩

instance : IsTotal (ℚ × String) geRow := ⟨fun a b => le_total b.1 a.1⟩

instance : IsTrans (ℚ × String) leRow := ⟨fun _ _ _ h1 h2 => le_trans h1 h2⟩

instance : IsTrans (ℚ × String) geRow := ⟨fun _ _ _ h1 h2 => le_trans h2 h1⟩

/-- `DataFrame.sort_values(by=column, ascending=...)` on the projected
(value, name) rows. -/
def sort_values (ascending : Bool) (rows : List (ℚ × String)) :
    List (ℚ × String) :=
  if ascending then List.insertionSort leRow rows
  else List.insertionSort geRow rows

/-- Value-level content of one horizontal bar chart: each bar is a
(length, label) pair. -/
structure BarChart where
  title : String
  bars : List (ℚ × String)
deriving DecidableEq, Repr

/-- `draw_top_bottom_data` (identical in both source files): sorts by
the column with `ascending=top`, keeps the first `cnt` rows, and draws
one bar per kept row with the row's `name` as label. -/
def draw_top_bottom_data (rows : List (ℚ × String)) (column : String)
    (cnt : Nat) (top : Bool) : BarChart :=
  { bars := (sort_values top rows).take cnt
  , title := "Top " ++ toString cnt ++ " "
      ++ (if top then "best" else "worst") ++ " results for " ++ column }

theorem insertionSort_take_spec (r : ℚ × String → ℚ × String → Prop)
    [DecidableRel r] [IsTotal (ℚ × String) r] [IsTrans (ℚ × String) r]
    (rows : List (ℚ × String)) (n : Nat) :
    ((List.insertionSort r rows).take n
        ++ (List.insertionSort r rows).drop n).Perm rows ∧
    (∀ a ∈ (List.insertionSort r rows).take n,
       ∀ b ∈ (List.insertionSort r rows).drop n, r a b) ∧
    ((List.insertionSort r rows).take n).length = min n rows.length := by
  have hperm := List.perm_insertionSort r rows
  have hsorted := List.sorted_insertionSort r rows
  refine ⟨?_, ?_, ?_⟩
  · rw [List.take_append_drop]; exact hperm
  · have hpw : List.Pairwise r ((List.insertionSort r rows).take n
        ++ (List.insertionSort r rows).drop n) := by
      rw [List.take_append_drop]; exact hsorted
    exact (List.pairwise_append.mp hpw).2.2
  · rw [List.length_take, hperm.length_eq]

theorem firstMissing_eq_none (present : List String) (cs : List String)
    (h : ∀ c ∈ cs, present.contains c = true) :
    firstMissing present cs = none := by
  induction cs with
  | nil => rfl
  | cons c cs ih =>
    unfold firstMissing
    rw [if_pos (h c (List.mem_cons_self c cs))]
    exact ih fun d hd => h d (List.mem_cons_of_mem c hd)

theorem runOp_ok_eq (save : String → String) (present : List String)
    (op : PlotOp) (q : String) (h : runOp save present op = Except.ok q) :
    q = save (opTitle op) := by
  unfold runOp at h
  cases hfm : firstMissing present (requiredCols op) with
  | some c => rw [hfm] at h; cases h
  | none =>
    rw [hfm] at h
    cases op with
    | combinedBoxplots cs1 cs2 t => cases h
    | scatter x y b => exact (Except.ok.inj h).symm
    | histogram c => exact (Except.ok.inj h).symm
    | boxplots cs t => exact (Except.ok.inj h).symm
    | topBottom c cnt top => exact (Except.ok.inj h).symm

theorem runBatch_mem (save : String → String) (ops : List PlotOp)
    (present : List String) (p : String) (h : p ∈ runBatch save ops present) :
    ∃ op ∈ ops, p = save (opTitle op) := by
  induction ops with
  | nil => cases h
  | cons op rest ih =>
    unfold runBatch at h
    cases hr : runOp save present op with
    | error e => rw [hr] at h; cases h
    | ok q =>
      rw [hr] at h
      rcases List.mem_cons.mp h with h | h
      · exact ⟨op, List.mem_cons_self op rest, h.trans (runOp_ok_eq save present op q hr)⟩
      · obtain ⟨op', hop', hp'⟩ := ih h
        exact ⟨op', List.mem_cons_of_mem op hop', hp'⟩

theorem makedirs_idem (d : String) (l : List String) :
    makedirs d (makedirs d l) = makedirs d l := by
  by_cases h : d ∈ l
  · simp [makedirs, h]
  · simp [makedirs, h]

/-- The spec's description of the sanitized filename: "the title with
every space replaced by an underscore", stated directly on the
character list. -/
def sanitizeSpec (t : String) : String :=
  ⟨t.data.map (fun c => if c = ' ' then '_' else c)⟩

theorem save_plot_shape_ext (t : String) :
    Plotter.save_plot_to_file t = "plots/" ++ (sanitizeSpec t ++ ".png") := by
  unfold Plotter.save_plot_to_file joinPath sanitizeSpec
  rw [String.map_eq]
  apply String.ext
  simp [String.data_append]

theorem save_plot_shape_basic (t : String) :
    ChartDrawer.save_plot_to_file t = "plots/" ++ (t ++ ".png") := by
  unfold ChartDrawer.save_plot_to_file joinPath
  apply String.ext
  simp [String.data_append]

/-- C1: the claim states that for a table with all expected columns the
extended variant returns 13 paths and the basic variant 9.  Evaluating
the code: the basic variant does return 9, but the extended variant
returns only 10, because operation 11 (`draw_combined_boxplots`) always
raises `KeyError 'Metric'` (the `'Metric'`/`'metric'` slip at
`plotter.py` line 134), which the batch handler catches, aborting the
remaining operations. -/
theorem C1_batch_path_count :
    (Plotter.draw_plots .ok (.ok extendedColumns)).length = 10 ∧
    (ChartDrawer.draw_plots .ok (.ok basicColumns)).length = 9 ∧
    (Plotter.draw_plots .ok (.ok extendedColumns)).length ≠ 13 := by
  decide

/-- C3: `draw_combined_boxplots` of the extended variant never returns
a path for any input table, and on every table containing all floor and
ceiling columns it raises `KeyError 'Metric'` (it reads column
`'Metric'` while the melt created `'metric'`). -/
theorem C3_combined_boxplots_always_raises (present : List String) :
    (∀ p, runOp Plotter.save_plot_to_file present
        (PlotOp.combinedBoxplots ["floor_min", "floor_mean", "floor_max"]
          ["ceiling_min", "ceiling_mean", "ceiling_max"] "Floor vs Ceiling")
      ≠ Except.ok p) ∧
    ((∀ c ∈ requiredCols
        (PlotOp.combinedBoxplots ["floor_min", "floor_mean", "floor_max"]
          ["ceiling_min", "ceiling_mean", "ceiling_max"] "Floor vs Ceiling"),
        present.contains c = true) →
      runOp Plotter.save_plot_to_file present
        (PlotOp.combinedBoxplots ["floor_min", "floor_mean", "floor_max"]
          ["ceiling_min", "ceiling_mean", "ceiling_max"] "Floor vs Ceiling")
      = Except.error "Metric") := by
  constructor
  · intro p hp
    unfold runOp at hp
    cases hfm : firstMissing present
        (requiredCols (PlotOp.combinedBoxplots
          ["floor_min", "floor_mean", "floor_max"]
          ["ceiling_min", "ceiling_mean", "ceiling_max"]
          "Floor vs Ceiling")) with
    | some c => rw [hfm] at hp; cases hp
    | none => rw [hfm] at hp; cases hp
  · intro h
    unfold runOp
    rw [firstMissing_eq_none present _ h]

/-- Witness for C3 at the full extended column set. -/
theorem C3_witness :
    runOp Plotter.save_plot_to_file extendedColumns
        (PlotOp.combinedBoxplots ["floor_min", "floor_mean", "floor_max"]
          ["ceiling_min", "ceiling_mean", "ceiling_max"] "Floor vs Ceiling")
      = Except.error "Metric" :=
  (C3_combined_boxplots_always_raises extendedColumns).2 (by decide)

/-- C4: the claim states that a table missing one expected column first
used at position k yields exactly the paths of the operations before
position k.  In the extended variant the column `name` is first used at
position 12 (index 11; no operation among the first eleven references
it), yet on a table with every expected column except `name` the batch
returns only 10 paths, not 11: operation 11 aborts the batch with
`KeyError 'Metric'` before the missing column is ever referenced. -/
theorem C4_missing_name_aborts_before_position_twelve :
    ((Plotter.ops.take 11).all
        (fun op => !(requiredCols op).contains "name")) = true ∧
    ((Plotter.ops.drop 11).all
        (fun op => (requiredCols op).contains "name")) = true ∧
    (Plotter.draw_plots .ok
        (.ok (extendedColumns.filter (fun c => c ≠ "name")))).length = 10 := by
  decide

/-- C5: whenever the reachability check fails with a RequestException
(network error, timeout, or error status), both variants of
`draw_plots` return the empty list, regardless of what parsing would
have produced — no parse is consulted, no chart operation runs, and no
exception escapes. -/
theorem C5_unreachable_url_returns_empty (msg : String)
    (parsed : Except ReadError (List String)) :
    Plotter.draw_plots (.requestException msg) parsed = [] ∧
    ChartDrawer.draw_plots (.requestException msg) parsed = [] := by
  exact ⟨rfl, rfl⟩

/-- C6: for a reachable URL whose body fails to parse (malformed JSON
`ValueError` or any other exception), both variants return the empty
list and run no chart operation. -/
theorem C6_parse_failure_returns_empty (e : ReadError) :
    Plotter.draw_plots .ok (.error e) = [] ∧
    ChartDrawer.draw_plots .ok (.error e) = [] := by
  exact ⟨rfl, rfl⟩

/-- C7: for every title the extended variant saves under the title with
every space replaced by an underscore plus `.png` inside `plots/`, and
in particular "Scatter plot a vs b" becomes
`plots/Scatter_plot_a_vs_b.png`; the basic variant performs no
sanitization and keeps literal spaces. -/
theorem C7_filename_sanitization (t : String) :
    Plotter.save_plot_to_file t = "plots/" ++ (sanitizeSpec t ++ ".png") ∧
    ChartDrawer.save_plot_to_file t = "plots/" ++ (t ++ ".png") ∧
    Plotter.save_plot_to_file "Scatter plot a vs b"
      = "plots/Scatter_plot_a_vs_b.png" ∧
    ChartDrawer.save_plot_to_file "Scatter plot a vs b"
      = "plots/Scatter plot a vs b.png" := by
  refine ⟨save_plot_shape_ext t, save_plot_shape_basic t, ?_, by decide⟩
  rw [save_plot_shape_ext]
  decide

/-- C10: re-running the constructor re-applies the same process-wide
defaults idempotently, in both variants: initializing twice leaves the
directory set and the rcParams state exactly as initializing once, and
the applied defaults are title size 18, title pad 20, whitegrid style,
10×6 figure size. -/
theorem C10_init_idempotent (s : ProcessState) :
    Plotter.init (Plotter.init s) = Plotter.init s ∧
    ChartDrawer.init (ChartDrawer.init s) = ChartDrawer.init s ∧
    ChartDrawer.init s = Plotter.init s ∧
    (Plotter.init s).rc.axes_titlesize = 18 ∧
    (Plotter.init s).rc.axes_titlepad = 20 ∧
    (Plotter.init s).rc.style = "whitegrid" ∧
    (Plotter.init s).rc.figure_figsize = (10, 6) ∧
    (Plotter.init s).rc.rest = s.rc.rest := by
  refine ⟨?_, ?_, rfl, rfl, rfl, rfl, rfl, rfl⟩
  · unfold Plotter.init
    rw [makedirs_idem]
    rfl
  · unfold ChartDrawer.init
    rw [makedirs_idem]
    rfl

/-- C2 counterexample: on the table with rows (1, a), (2, b), (3, c)
and n = 2, the chart drawn with top = true (titled "Top 2 best results
for mean") selects the two smallest values 1 and 2 and omits the row
carrying the largest value 3, so `draw_top_bottom_data` with top = true
does not select the n rows with the largest values as the claim
states. -/
theorem C2_counterexample :
    (draw_top_bottom_data [((1 : ℚ), "a"), (2, "b"), (3, "c")]
        "mean" 2 true).bars = [((1 : ℚ), "a"), (2, "b")] ∧
    (draw_top_bottom_data [((1 : ℚ), "a"), (2, "b"), (3, "c")]
        "mean" 2 true).title = "Top 2 best results for mean" ∧
    ((1 : ℚ) < 3 ∧ (2 : ℚ) < 3) ∧
    ((3 : ℚ), "c") ∉ (draw_top_bottom_data [((1 : ℚ), "a"), (2, "b"), (3, "c")]
        "mean" 2 true).bars := by
  decide

/-- C2 (amended): `draw_top_bottom_data` with top = true (the 'best'
chart) selects the n rows with the smallest values of the column, and
with top = false (the 'worst' chart) the n rows with the largest
values; each bar is a (value, name) row of the input table, labeled by
that row's name; in the batch both charts use column mean with
n = 10. -/
theorem C2_top_bottom_selection (rows : List (ℚ × String))
    (column : String) (n : Nat) :
    ((draw_top_bottom_data rows column n true).bars
        ++ (sort_values true rows).drop n).Perm rows ∧
    (∀ a ∈ (draw_top_bottom_data rows column n true).bars,
       ∀ b ∈ (sort_values true rows).drop n, a.1 ≤ b.1) ∧
    (draw_top_bottom_data rows column n true).bars.length
        = min n rows.length ∧
    ((draw_top_bottom_data rows column n false).bars
        ++ (sort_values false rows).drop n).Perm rows ∧
    (∀ a ∈ (draw_top_bottom_data rows column n false).bars,
       ∀ b ∈ (sort_values false rows).drop n, b.1 ≤ a.1) ∧
    (draw_top_bottom_data rows column n false).bars.length
        = min n rows.length ∧
    (∀ p ∈ (draw_top_bottom_data rows column n true).bars, p ∈ rows) ∧
    (∀ p ∈ (draw_top_bottom_data rows column n false).bars, p ∈ rows) ∧
    Plotter.ops[11]? = some (.topBottom "mean" 10 true) ∧
    Plotter.ops[12]? = some (.topBottom "mean" 10 false) ∧
    ChartDrawer.ops[7]? = some (.topBottom "mean" 10 true) ∧
    ChartDrawer.ops[8]? = some (.topBottom "mean" 10 false) := by
  obtain ⟨hperm1, hord1, hlen1⟩ := insertionSort_take_spec leRow rows n
  obtain ⟨hperm2, hord2, hlen2⟩ := insertionSort_take_spec geRow rows n
  have hbars1 : (draw_top_bottom_data rows column n true).bars
      = (List.insertionSort leRow rows).take n := rfl
  have hbars2 : (draw_top_bottom_data rows column n false).bars
      = (List.insertionSort geRow rows).take n := rfl
  have hsv1 : sort_values true rows = List.insertionSort leRow rows := rfl
  have hsv2 : sort_values false rows = List.insertionSort geRow rows := rfl
  refine ⟨?_, ?_, ?_, ?_, ?_, ?_, ?_, ?_, by decide, by decide, by decide,
    by decide⟩
  · rw [hbars1, hsv1]; exact hperm1
  · rw [hbars1, hsv1]; exact hord1
  · rw [hbars1]; exact hlen1
  · rw [hbars2, hsv2]; exact hperm2
  · rw [hbars2, hsv2]; exact hord2
  · rw [hbars2]; exact hlen2
  · rw [hbars1]
    intro p hp
    exact hperm1.mem_iff.mp (List.mem_append_left _ hp)
  · rw [hbars2]
    intro p hp
    exact hperm2.mem_iff.mp (List.mem_append_left _ hp)

/-- C8: for nonempty numeric columns, requesting the reference line
yields a dashed diagonal from 0.9 × min(min(x), min(y)) to
1.1 × max(max(x), max(y)) on both axes, drawn beneath the points
(zorder 1 versus zorder 2); both endpoints' base values are genuine
extrema of the data. -/
theorem C8_reference_line (xs ys : List ℚ) (x y : String)
    (hx : xs ≠ []) (hy : ys ≠ []) :
    ∃ r : RefLine,
      (draw_scatterplot xs ys x y true).line = some r ∧
      r.lo = (9 / 10) * min (seriesMin xs) (seriesMin ys) ∧
      r.hi = (11 / 10) * max (seriesMax xs) (seriesMax ys) ∧
      (min (seriesMin xs) (seriesMin ys) ∈ xs
        ∨ min (seriesMin xs) (seriesMin ys) ∈ ys) ∧
      (∀ v ∈ xs, min (seriesMin xs) (seriesMin ys) ≤ v) ∧
      (∀ v ∈ ys, min (seriesMin xs) (seriesMin ys) ≤ v) ∧
      (max (seriesMax xs) (seriesMax ys) ∈ xs
        ∨ max (seriesMax xs) (seriesMax ys) ∈ ys) ∧
      (∀ v ∈ xs, v ≤ max (seriesMax xs) (seriesMax ys)) ∧
      (∀ v ∈ ys, v ≤ max (seriesMax xs) (seriesMax ys)) ∧
      r.zorder < (draw_scatterplot xs ys x y true).pointsZorder := by
  refine ⟨_, rfl, mul_comm _ _, mul_comm _ _, ?_, ?_, ?_, ?_, ?_, ?_, ?_⟩
  · rcases min_choice (seriesMin xs) (seriesMin ys) with h | h
    · refine Or.inl ?_
      rw [h]
      exact seriesMin_mem xs hx
    · refine Or.inr ?_
      rw [h]
      exact seriesMin_mem ys hy
  · intro v hv
    exact le_trans (min_le_left _ _) (seriesMin_le xs v hv)
  · intro v hv
    exact le_trans (min_le_right _ _) (seriesMin_le ys v hv)
  · rcases max_choice (seriesMax xs) (seriesMax ys) with h | h
    · refine Or.inl ?_
      rw [h]
      exact seriesMax_mem xs hx
    · refine Or.inr ?_
      rw [h]
      exact seriesMax_mem ys hy
  · intro v hv
    exact le_trans (le_seriesMax xs v hv) (le_max_left _ _)
  · intro v hv
    exact le_trans (le_seriesMax ys v hv) (le_max_right _ _)
  · exact Nat.one_lt_two

/-- Witness for C8 on the columns x = (1, 2), y = (4). -/
theorem C8_witness :
    ∃ r : RefLine,
      (draw_scatterplot [(1 : ℚ), 2] [(4 : ℚ)] "gt_corners" "rb_corners"
          true).line = some r ∧
      r.lo = (9 / 10) * min (seriesMin [(1 : ℚ), 2]) (seriesMin [(4 : ℚ)]) ∧
      r.hi = (11 / 10) * max (seriesMax [(1 : ℚ), 2]) (seriesMax [(4 : ℚ)]) ∧
      (min (seriesMin [(1 : ℚ), 2]) (seriesMin [(4 : ℚ)]) ∈ [(1 : ℚ), 2]
        ∨ min (seriesMin [(1 : ℚ), 2]) (seriesMin [(4 : ℚ)]) ∈ [(4 : ℚ)]) ∧
      (∀ v ∈ [(1 : ℚ), 2],
        min (seriesMin [(1 : ℚ), 2]) (seriesMin [(4 : ℚ)]) ≤ v) ∧
      (∀ v ∈ [(4 : ℚ)],
        min (seriesMin [(1 : ℚ), 2]) (seriesMin [(4 : ℚ)]) ≤ v) ∧
      (max (seriesMax [(1 : ℚ), 2]) (seriesMax [(4 : ℚ)]) ∈ [(1 : ℚ), 2]
        ∨ max (seriesMax [(1 : ℚ), 2]) (seriesMax [(4 : ℚ)]) ∈ [(4 : ℚ)]) ∧
      (∀ v ∈ [(1 : ℚ), 2],
        v ≤ max (seriesMax [(1 : ℚ), 2]) (seriesMax [(4 : ℚ)])) ∧
      (∀ v ∈ [(4 : ℚ)],
        v ≤ max (seriesMax [(1 : ℚ), 2]) (seriesMax [(4 : ℚ)])) ∧
      r.zorder < (draw_scatterplot [(1 : ℚ), 2] [(4 : ℚ)] "gt_corners"
          "rb_corners" true).pointsZorder :=
  C8_reference_line [(1 : ℚ), 2] [(4 : ℚ)] "gt_corners" "rb_corners"
    (by decide) (by decide)

/-- C9: every path either variant's `draw_plots` ever returns lies
under the `plots` output directory and carries the `.png` extension. -/
theorem C9_path_shape :
    (∀ (u : UrlCheck) (parsed : Except ReadError (List String)) (p : String),
        p ∈ Plotter.draw_plots u parsed →
          ∃ t, p = "plots/" ++ (t ++ ".png")) ∧
    (∀ (u : UrlCheck) (parsed : Except ReadError (List String)) (p : String),
        p ∈ ChartDrawer.draw_plots u parsed →
          ∃ t, p = "plots/" ++ (t ++ ".png")) := by
  constructor
  · intro u parsed p hp
    unfold Plotter.draw_plots at hp
    cases u with
    | requestException msg => cases hp
    | ok =>
      cases parsed with
      | error e => cases hp
      | ok present =>
        obtain ⟨op, _, hpath⟩ :=
          runBatch_mem Plotter.save_plot_to_file Plotter.ops present p hp
        exact ⟨sanitizeSpec (opTitle op),
          hpath.trans (save_plot_shape_ext (opTitle op))⟩
  · intro u parsed p hp
    unfold ChartDrawer.draw_plots at hp
    cases u with
    | requestException msg => cases hp
    | ok =>
      cases parsed with
      | error e => cases hp
      | ok present =>
        obtain ⟨op, _, hpath⟩ :=
          runBatch_mem ChartDrawer.save_plot_to_file ChartDrawer.ops present p hp
        exact ⟨opTitle op, hpath.trans (save_plot_shape_basic (opTitle op))⟩

/-- Witness for C9 on the first path of a full basic-variant run. -/
theorem C9_witness :
    ∃ t, "plots/Scatter plot gt_corners vs rb_corners.png"
      = "plots/" ++ (t ++ ".png") :=
  C9_path_shape.2 .ok (.ok basicColumns)
    "plots/Scatter plot gt_corners vs rb_corners.png" (by decide)

/-- Witness for C2 (amended) on a concrete three-row table. -/
theorem C2_witness :
    ((draw_top_bottom_data [((5 : ℚ), "a"), (1, "b"), (3, "c")]
        "mean" 2 true).bars
      ++ (sort_values true [((5 : ℚ), "a"), (1, "b"), (3, "c")]).drop 2).Perm
      [((5 : ℚ), "a"), (1, "b"), (3, "c")] :=
  (C2_top_bottom_selection [((5 : ℚ), "a"), (1, "b"), (3, "c")] "mean" 2).1
